import Mathlib

/-!
Verification development for the Loopring exchange connector
(`hummingbot/market/loopring/loopring_market.pyx`).

The Python source is shallowly embedded below: pure helper functions become
Lean functions over `Rat` / `Int` / `Nat`; the stateful order-id allocator is
modelled by explicit state passing; code that can raise a Python exception
returns an `Except` value tagged with the kind of exception raised.  Remote
collaborators (the HTTP endpoints, the token-configuration component, the
in-flight-order update method) are passed in as explicit parameters holding
their observable outcome, exactly as the source consumes them.
-/

/-- Kinds of Python exceptions that the embedded code can raise.
`valueError` stands for `ValueError`, `unboundLocal` for the
`UnboundLocalError` raised when a local variable is read before assignment,
`keyError` for `KeyError`, and `generic` for any other `Exception`
(for example `IOError` raised by `api_request`). -/
inductive PyExn where
  | valueError
  | unboundLocal
  | keyError
  | generic
deriving DecidableEq

/-- Market events that `c_trigger_event` can emit (from
`hummingbot.core.event.events.MarketEvent`, restricted to the ones this
connector uses). -/
inductive MEvent where
  | OrderFailure
  | BuyOrderCreated
  | SellOrderCreated
  | OrderCancelled
  | OrderFilled
  | OrderExpired
  | BuyOrderCompleted
  | SellOrderCompleted
deriving DecidableEq

/-- Order kinds, from `hummingbot.core.event.events.OrderType`. -/
inductive OrderType where
  | LIMIT
  | MARKET
deriving DecidableEq

/-- Order sides, from `hummingbot.core.event.events.TradeType`. -/
inductive TradeType where
  | BUY
  | SELL
deriving DecidableEq

/-- Truncation of a rational toward zero, the rounding mode of Python
`Decimal.quantize(..., rounding=ROUND_DOWN)`. -/
def ratTrunc (x : ℚ) : ℤ :=
  if 0 ≤ x then ⌊x⌋ else ⌈x⌉

/-- Rounding `x` toward zero to an integer multiple of `step`; this is what
`Decimal.quantize(step, rounding=ROUND_DOWN)` computes for a positive
power-of-ten `step`. -/
def quantizeRoundDown (x step : ℚ) : ℚ :=
  (ratTrunc (x / step) : ℚ) * step

/-- Embedding of `hummingbot.market.trading_rule.TradingRule`, with exactly
the fields that `loopring_market.pyx` reads or writes. -/
structure TradingRule where
  min_order_size : ℚ
  max_order_size : ℚ
  min_price_increment : ℚ
  min_base_amount_increment : ℚ
  min_quote_amount_increment : ℚ
  min_notional_size : ℚ
  supports_limit_orders : Bool
  supports_market_orders : Bool
deriving DecidableEq

/-- Embedding of `c_quantize_order_price` (line 766): the price is quantized
to the trading rule's `min_price_increment` with rounding mode `ROUND_DOWN`
(toward zero). -/
def c_quantize_order_price (r : TradingRule) (price : ℚ) : ℚ :=
  quantizeRoundDown price r.min_price_increment

/-- Embedding of `c_quantize_order_amount` (lines 769-779): the amount is
quantized to `min_base_amount_increment` with `ROUND_DOWN`; a quantized
amount below `min_order_size` yields the sentinel `Decimal(0)`; when the
`price` argument is positive and `price * quantized_amount` is below
`min_notional_size` the sentinel is returned as well.  The `price` parameter
defaults to `0.0` in the source, and the only caller in this file
(`execute_order`, line 306) uses that default. -/
def c_quantize_order_amount (r : TradingRule) (amount : ℚ) (price : ℚ) : ℚ :=
  let quantized_amount := quantizeRoundDown amount r.min_base_amount_increment
  if quantized_amount < r.min_order_size then 0
  else if 0 < price ∧ price * quantized_amount < r.min_notional_size then 0
  else quantized_amount

/-- Embedding of `_get_next_order_id` (lines 223-237).  State is the
`_next_order_id` mapping from token id to stored counter; `remote` is the
outcome of the `api_request` fetch of `NEXT_ORDER_ID` (only consulted on the
cold or forced path).  The function returns the value produced by
`return next_id` (or the exception raised there) together with the updated
counter map.  Faithful details: on the cold/forced path the fetched id is
stored WITHOUT incrementing; when the remote fetch raises, the exception is
caught and logged inside the function, so `return next_id` then raises
`UnboundLocalError` because `next_id` was never assigned; on the warm path
the stored value is returned and the stored counter is incremented by one. -/
def getNextOrderId (counters : Nat → Option Nat) (token : Nat) (force_sync : Bool)
    (remote : Except PyExn Nat) : Except PyExn Nat × (Nat → Option Nat) :=
  if force_sync || (counters token).isNone then
    match remote with
    | Except.ok next_id =>
        (Except.ok next_id, fun t => if t = token then some next_id else counters t)
    | Except.error _ => (Except.error PyExn.unboundLocal, counters)
  else
    match counters token with
    | some next_id =>
        (Except.ok next_id, fun t => if t = token then some (next_id + 1) else counters t)
    | none => (Except.error PyExn.keyError, counters)

/-- Encoding of a Python boolean as the integer `0` or `1`, i.e. `int(b)`. -/
def boolInt (b : Bool) : ℤ :=
  if b then 1 else 0

/-- Result of the token-configuration collaborator call
`sell_buy_amounts(baseid, quoteid, amount, price, order_side)` (line 268):
the sell and buy token ids and the padded integer sell and buy amounts that
it merges into the order dictionary. -/
structure OrderDetails where
  tokenSId : ℤ
  tokenBId : ℤ
  amountS : ℤ
  amountB : ℤ

/-- The order dictionary built by `place_order` (lines 271-283), restricted
to the keys that `_serialize_order` reads plus `clientOrderId`.  The two
boolean fields are the strings `"true"` / `"false"`, exactly as the source
stores them. -/
structure LoopringOrder where
  exchangeId : ℤ
  orderId : ℤ
  accountId : ℤ
  tokenSId : ℤ
  tokenBId : ℤ
  amountS : ℤ
  amountB : ℤ
  allOrNone : String
  validSince : ℤ
  validUntil : ℤ
  maxFeeBips : ℤ
  buy : String
  label : ℤ
  clientOrderId : String

/-- Embedding of `_serialize_order` (lines 239-254): the 13-element
fixed-order list of integers hashed by `poseidon`; the two string booleans
are compared against `"true"` and encoded with `int(...)` as 0/1. -/
def serialize_order (o : LoopringOrder) : List ℤ :=
  [o.exchangeId,
   o.orderId,
   o.accountId,
   o.tokenSId,
   o.tokenBId,
   o.amountS,
   o.amountB,
   boolInt (o.allOrNone == "true"),
   o.validSince,
   o.validUntil,
   o.maxFeeBips,
   boolInt (o.buy == "true"),
   o.label]

/-- Construction of the order dictionary in `place_order` (lines 271-283):
`allOrNone` is the string `"false"`, `validUntil` is `validSince + 604800*5`,
`maxFeeBips` is `63`, `label` is `20`, and `buy` is `"true"` exactly when the
order side is `TradeType.BUY`; the token ids and amounts come from the
`order_details` record. -/
def place_order_record (exchangeId accountId order_id validSince : ℤ)
    (d : OrderDetails) (is_buy : Bool) (client_order_id : String) : LoopringOrder :=
  { exchangeId := exchangeId,
    orderId := order_id,
    accountId := accountId,
    tokenSId := d.tokenSId,
    tokenBId := d.tokenBId,
    amountS := d.amountS,
    amountB := d.amountB,
    allOrNone := "false",
    validSince := validSince,
    validUntil := validSince + 604800 * 5,
    maxFeeBips := 63,
    buy := if is_buy then "true" else "false",
    label := 20,
    clientOrderId := client_order_id }

/-- Observable effects of one `place_order` call (lines 256-298), plus the
verification of the response performed by `execute_order` (lines 327-330).
`nonceCalls` counts calls that consumed an order id from the allocator,
`signingCalls` counts poseidon-hash-and-EdDSA-sign computations, and
`apiCalls` counts `api_request` calls issued by `place_order` itself. -/
structure PlaceEff where
  outcome : Except PyExn Unit
  nonceCalls : Nat
  signingCalls : Nat
  apiCalls : Nat

/-- Model of `place_order` composed with the response check of
`execute_order`.  `nonceRes` is the outcome of `_get_next_order_id`
(line 270): if it raises, `place_order` raises before any signing or network
work.  `submitRes` is the outcome of the `api_request` POST (line 298)
combined with the `"data" in creation_response` check (line 328):
`ok true` means the POST succeeded and the response carried a `data` key,
`ok false` means the POST succeeded but `data` was missing, in which case
line 329 raises a plain `Exception`, and `error e` means the POST itself
raised `e`. -/
def place_order_model (nonceRes : Except PyExn Nat) (submitRes : Except PyExn Bool) : PlaceEff :=
  match nonceRes with
  | Except.error e =>
      { outcome := Except.error e, nonceCalls := 1, signingCalls := 0, apiCalls := 0 }
  | Except.ok _ =>
      match submitRes with
      | Except.ok true =>
          { outcome := Except.ok (), nonceCalls := 1, signingCalls := 1, apiCalls := 1 }
      | Except.ok false =>
          { outcome := Except.error PyExn.generic, nonceCalls := 1, signingCalls := 1, apiCalls := 1 }
      | Except.error e =>
          { outcome := Except.error e, nonceCalls := 1, signingCalls := 1, apiCalls := 1 }

instance {ε α : Type} [DecidableEq ε] [DecidableEq α] : DecidableEq (Except ε α) := fun a b =>
  match a, b with
  | Except.ok x, Except.ok y =>
      if h : x = y then isTrue (by rw [h]) else isFalse (by simp [h])
  | Except.error e, Except.error f =>
      if h : e = f then isTrue (by rw [h]) else isFalse (by simp [h])
  | Except.ok _, Except.error _ => isFalse (by simp)
  | Except.error _, Except.ok _ => isFalse (by simp)

/-- Observable result of `execute_order` / `execute_buy` for one submission
attempt: the value or exception produced, the events triggered, the
counts of allocator / signing / direct network calls, the number of forced
allocator resyncs, and whether the order is tracked in `_in_flight_orders`
when the call finishes. -/
structure ExecResult where
  outcome : Except PyExn Unit
  events : List MEvent
  nonceCalls : Nat
  signingCalls : Nat
  apiCalls : Nat
  forcedResyncs : Nat
  trackedAtEnd : Bool
deriving DecidableEq

/-- Result of every validation failure in `execute_order` (lines 309-321):
a `ValueError` is raised before `place_order` is reached, so no event is
emitted, no nonce is consumed, nothing is signed, no network call is made,
and the order is never tracked. -/
def validationFailureResult : ExecResult :=
  { outcome := Except.error PyExn.valueError, events := [], nonceCalls := 0,
    signingCalls := 0, apiCalls := 0, forcedResyncs := 0, trackedAtEnd := false }

/-- The `try`/`except` body of `execute_order` (lines 323-351), reached only
after all validations pass.  On success the order is tracked and nothing
further happens inside `execute_order`.  On any exception from `place_order`
or the response check, the handler performs a forced allocator resync
(line 347, outcome `resyncRes`), then stops tracking and triggers exactly one
`OrderFailure` event; the exception is swallowed, so `execute_order` returns
normally.  If the forced resync itself raises, the handler aborts before
`stop_tracking` and the event, and that exception propagates out of
`execute_order`. -/
def submissionResult (nonceRes : Except PyExn Nat) (submitRes : Except PyExn Bool)
    (resyncRes : Except PyExn Nat) : ExecResult :=
  match (place_order_model nonceRes submitRes).outcome with
  | Except.ok _ =>
      { outcome := Except.ok (), events := [],
        nonceCalls := (place_order_model nonceRes submitRes).nonceCalls,
        signingCalls := (place_order_model nonceRes submitRes).signingCalls,
        apiCalls := (place_order_model nonceRes submitRes).apiCalls, forcedResyncs := 0,
        trackedAtEnd := true }
  | Except.error _ =>
      match resyncRes with
      | Except.ok _ =>
          { outcome := Except.ok (), events := [MEvent.OrderFailure],
            nonceCalls := (place_order_model nonceRes submitRes).nonceCalls,
            signingCalls := (place_order_model nonceRes submitRes).signingCalls,
            apiCalls := (place_order_model nonceRes submitRes).apiCalls,
            forcedResyncs := 1, trackedAtEnd := false }
      | Except.error e2 =>
          { outcome := Except.error e2, events := [],
            nonceCalls := (place_order_model nonceRes submitRes).nonceCalls,
            signingCalls := (place_order_model nonceRes submitRes).signingCalls,
            apiCalls := (place_order_model nonceRes submitRes).apiCalls,
            forcedResyncs := 1, trackedAtEnd := false }

/-- Embedding of `execute_order` (lines 300-351).  The amount and price are
quantized first (the amount without a price argument, so the quantizer's
notional check is skipped); the five validation checks are performed in
source order, each raising `ValueError`; only then is `place_order` invoked,
with the failure handling of `submissionResult`. -/
def execute_order (rule : TradingRule) (order_side : TradeType) (order_type : OrderType)
    (amount price : ℚ) (nonceRes : Except PyExn Nat) (submitRes : Except PyExn Bool)
    (resyncRes : Except PyExn Nat) : ExecResult :=
  if order_type = OrderType.LIMIT ∧ rule.supports_limit_orders = false then
    validationFailureResult
  else if order_type = OrderType.MARKET ∧ rule.supports_market_orders = false then
    validationFailureResult
  else if c_quantize_order_amount rule amount 0 < rule.min_order_size then
    validationFailureResult
  else if rule.max_order_size < c_quantize_order_amount rule amount 0 then
    validationFailureResult
  else if c_quantize_order_amount rule amount 0 * c_quantize_order_price rule price <
      rule.min_notional_size then
    validationFailureResult
  else
    submissionResult nonceRes submitRes resyncRes

/-- The wrapper logic of `execute_buy` (lines 353-368) applied to the result
of `execute_order`: on normal return a `BuyOrderCreated` event is triggered;
a `ValueError` is caught, tracking is stopped, one `OrderFailure` event is
triggered and the exception is re-raised; any other exception propagates
untouched. -/
def buyWrap (r : ExecResult) : ExecResult :=
  match r.outcome with
  | Except.ok _ => { r with events := r.events ++ [MEvent.BuyOrderCreated] }
  | Except.error PyExn.valueError =>
      { r with events := r.events ++ [MEvent.OrderFailure], trackedAtEnd := false }
  | Except.error _ => r

/-- Embedding of `execute_buy` (lines 353-368). -/
def execute_buy (rule : TradingRule) (order_type : OrderType) (amount price : ℚ)
    (nonceRes : Except PyExn Nat) (submitRes : Except PyExn Bool)
    (resyncRes : Except PyExn Nat) : ExecResult :=
  buyWrap (execute_order rule TradeType.BUY order_type amount price nonceRes submitRes resyncRes)

/-- All five validation checks of `execute_order` (lines 309-321) pass. -/
def validationPasses (rule : TradingRule) (order_type : OrderType) (amount price : ℚ) : Prop :=
  ¬(order_type = OrderType.LIMIT ∧ rule.supports_limit_orders = false) ∧
  ¬(order_type = OrderType.MARKET ∧ rule.supports_market_orders = false) ∧
  ¬(c_quantize_order_amount rule amount 0 < rule.min_order_size) ∧
  ¬(rule.max_order_size < c_quantize_order_amount rule amount 0) ∧
  ¬(c_quantize_order_amount rule amount 0 * c_quantize_order_price rule price <
      rule.min_notional_size)

instance (rule : TradingRule) (order_type : OrderType) (amount price : ℚ) :
    Decidable (validationPasses rule order_type amount price) := by
  unfold validationPasses
  infer_instance

/-- Lookup in the in-flight order registry, i.e. Python
`self._in_flight_orders.get(client_order_id)`.  The registry is modelled as
an association list with unique keys. -/
def regLookup {O : Type} (registry : List (String × O)) (cid : String) : Option O :=
  match registry with
  | [] => none
  | p :: rest => if p.1 = cid then some p.2 else regLookup rest cid

/-- Removal of a key from the registry, i.e. `del self._in_flight_orders[k]`
as performed by `stop_tracking` (lines 510-512). -/
def regRemove {O : Type} (registry : List (String × O)) (cid : String) : List (String × O) :=
  registry.filter (fun p => !(p.1 == cid))

/-- In-place mutation of the tracked order stored under a key. -/
def regReplace {O : Type} (registry : List (String × O)) (cid : String) (o : O) :
    List (String × O) :=
  registry.map (fun p => if p.1 == cid then (p.1, o) else p)

/-- Embedding of the per-message dispatch of `_user_stream_event_listener`
(lines 640-664).  `update` abstracts `_update_inflight_order` applied to a
tracked order and the message `data`: it yields the updated order (`none`
when the order reached a terminal state and was removed by
`c_stop_tracking_order`) together with the events it triggered.  The result
is the new registry, the events triggered, and whether the message was
merely logged and dropped.  Topic `account` feeds `_set_balances`, which
never touches the order registry; topic `order` with an unknown client order
id is logged and skipped by the `continue` on line 655; topics `sub` and
`unsub` are ignored; any other topic is logged and dropped. -/
def handle_user_stream_message {O D : Type} (update : O → D → Option O × List MEvent)
    (registry : List (String × O)) (topic : String) (cid : String) (payload : D) :
    List (String × O) × List MEvent × Bool :=
  if topic = "account" then (registry, [], false)
  else if topic = "order" then
    match regLookup registry cid with
    | none => (registry, [], true)
    | some o =>
        match update o payload with
        | (some o2, evs) => (regReplace registry cid o2, evs, false)
        | (none, evs) => (regRemove registry cid, evs, false)
  else if topic = "sub" then (registry, [], false)
  else if topic = "unsub" then (registry, [], false)
  else (registry, [], true)

/-- Embedding of `cancel_order` (lines 405-427).  `remote` is the outcome of
the DELETE `api_request` (line 419).  When the order id has no local record,
a cancellation event is emitted immediately (treated as already cancelled).
Otherwise, on remote success the order is untracked and a cancellation event
is emitted; on any remote exception the failure is only logged: no event is
emitted, the order stays tracked, and — decisively — the exception is NOT
re-raised, so `cancel_order` never raises. -/
def cancel_order {O : Type} (registry : List (String × O)) (cid : String)
    (remote : Except PyExn Unit) : List (String × O) × List MEvent :=
  match regLookup registry cid with
  | none => (registry, [MEvent.OrderCancelled])
  | some _ =>
      match remote with
      | Except.ok _ => (regRemove registry cid, [MEvent.OrderCancelled])
      | Except.error _ => (registry, [])

/-- Result record appended by `cancel_all`, from
`hummingbot.core.data_type.cancellation_result.CancellationResult`. -/
structure CancellationResult where
  order_id : String
  success : Bool
deriving DecidableEq

/-- The `for` loop of `cancel_all` (lines 439-444) over the snapshot of
order ids, threading the registry through successive `cancel_order` calls
and accumulating one `CancellationResult` per id.  Because `cancel_order`
never raises, the `except` branch that would append a `success=False`
result is unreachable, and every appended result has `success := true`. -/
def cancel_all_go {O : Type} (remote : String → Except PyExn Unit)
    (cids : List String) (registry : List (String × O)) :
    List CancellationResult × List (String × O) × List MEvent :=
  match cids with
  | [] => ([], registry, [])
  | cid :: rest =>
      let step := cancel_order registry cid (remote cid)
      let next := cancel_all_go remote rest step.1
      ({ order_id := cid, success := true } :: next.1, next.2.1, step.2 ++ next.2.2)

/-- Embedding of `cancel_all` (lines 436-445): it snapshots the registry
with `.copy()`, loops over its order ids, and returns the accumulated
results.  The `timeout_seconds` parameter is received but never read. -/
def cancel_all {O : Type} (timeout_seconds : ℚ) (registry : List (String × O))
    (remote : String → Except PyExn Unit) :
    List CancellationResult × List (String × O) × List MEvent :=
  cancel_all_go remote (registry.map Prod.fst) registry

/-- One entry of the `markets_info` response consumed by
`_update_trading_rules` (lines 699-729), restricted to the keys read. -/
structure MarketInfo where
  market : String
  enabled : Bool
  baseTokenId : Nat
  quoteTokenId : Nat
  precisionForPrice : Nat

/-- One entry of the `tokens_info` response consumed by
`_update_trading_rules`, restricted to the keys read.  The order amounts are
the raw padded integers that `token_configuration.unpad` converts. -/
structure TokenInfo where
  tokenId : Nat
  precision : Nat
  minOrderAmount : Nat
  maxOrderAmount : Nat

/-- The dictionary `{t['tokenId']: t for t in tokens_info}` (line 709):
lookup of a token id in the token list. -/
def tokenLookup (tokens : List TokenInfo) (i : Nat) : Option TokenInfo :=
  tokens.find? (fun t => t.tokenId == i)

/-- Embedding of `_update_trading_rules` (lines 699-729): for every enabled
market whose base and quote tokens are present in `tokens_info`, a
`TradingRule` is written into the table with `supports_limit_orders = True`
and `supports_market_orders = False` hard-coded (lines 724-725); a market
raising inside the `try` (a missing token id) is logged and skipped.
`unpad` abstracts `token_configuration.unpad(raw, token_id)`. -/
def update_trading_rules (markets : List MarketInfo) (tokens : List TokenInfo)
    (unpad : Nat → Nat → ℚ) : List (String × TradingRule) :=
  markets.filterMap (fun m =>
    if m.enabled then
      match tokenLookup tokens m.baseTokenId, tokenLookup tokens m.quoteTokenId with
      | some bt, some qt =>
          some (m.market,
            { min_order_size := unpad bt.minOrderAmount m.baseTokenId,
              max_order_size := unpad bt.maxOrderAmount m.baseTokenId,
              min_price_increment := (1 : ℚ) / 10 ^ m.precisionForPrice,
              min_base_amount_increment := (1 : ℚ) / 10 ^ bt.precision,
              min_quote_amount_increment := (1 : ℚ) / 10 ^ qt.precision,
              min_notional_size := unpad qt.minOrderAmount m.quoteTokenId,
              supports_limit_orders := true,
              supports_market_orders := false })
      | _, _ => none
    else none)

/-- UTF-8 encoding of a character sequence, one natural number per byte. -/
def utf8Bytes : List Char → List Nat
  | [] => []
  | c :: cs =>
      (if c.toNat < 128 then [c.toNat]
       else if c.toNat < 2048 then [192 + c.toNat / 64, 128 + c.toNat % 64]
       else if c.toNat < 65536 then
         [224 + c.toNat / 4096, 128 + (c.toNat / 64) % 64, 128 + c.toNat % 64]
       else
         [240 + c.toNat / 262144, 128 + (c.toNat / 4096) % 64, 128 + (c.toNat / 64) % 64,
          128 + c.toNat % 64]) ++ utf8Bytes cs

/-- UTF-8 bytes of a string, as natural numbers: the byte sequence that
Python derives from a `str` before percent-encoding or hashing it
(`.encode('utf-8')`). -/
def strBytes (s : String) : List Nat :=
  utf8Bytes s.data

/-- Predicate for the bytes `urllib.parse.quote` leaves unescaped when
`safe=''`: ASCII letters, digits, and the four marks `_ . - ~`. -/
def isUnreservedByte (b : Nat) : Bool :=
  (decide (65 ≤ b) && decide (b ≤ 90)) || (decide (97 ≤ b) && decide (b ≤ 122)) ||
  (decide (48 ≤ b) && decide (b ≤ 57)) || b == 45 || b == 46 || b == 95 || b == 126

/-- Uppercase hexadecimal digit for a value below 16, as used in
percent-escapes. -/
def hexDigitChar (n : Nat) : Char :=
  if n < 10 then Char.ofNat (48 + n) else Char.ofNat (55 + n)

/-- Percent-encoding of one byte: unreserved bytes stand for themselves,
every other byte becomes a percent sign followed by two uppercase hex
digits. -/
def quoteByte (b : Nat) : List Char :=
  if isUnreservedByte b then [Char.ofNat b]
  else [Char.ofNat 37, hexDigitChar (b / 16), hexDigitChar (b % 16)]

/-- Embedding of `urllib.parse.quote(s, safe='')` as used by
`_encode_request` (lines 794-795): the string is encoded to UTF-8 bytes and
every byte is percent-encoded except the unreserved ones. -/
def pyQuote (s : String) : String :=
  String.mk ((strBytes s).flatMap quoteByte)

/-- Python `"&".join(parts)`. -/
def joinAmp : List String → String
  | [] => ""
  | [s] => s
  | s :: rest => s ++ "&" ++ joinAmp rest

/-- The flattened parameter string
`"&".join([f"{k}={str(v)}" for k, v in params.items()])` of `_encode_request`
(line 795); the parameter map is modelled as the association list given by
the dictionary's iteration order, with values already rendered by `str`. -/
def renderParams (params : List (String × String)) : String :=
  joinAmp (params.map (fun kv => kv.1 ++ "=" ++ kv.2))

/-- Embedding of `_encode_request` (lines 793-796).  Note the parameter
order of the source: the first parameter is the URL and the second the HTTP
method, and the returned string joins `[method, quoted url, quoted params]`
with ampersands. -/
def encode_request (url : String) (method : String) (params : List (String × String)) : String :=
  joinAmp [method, pyQuote url, pyQuote (renderParams params)]

/-- Modelled from the spec: the scalar field modulus `SNARK_SCALAR_FIELD`
imported from the ethsnarks field module, which belongs to this repository
(`hummingbot/market/loopring/ethsnarks2/field.py`) but is not part of the
excerpt; the spec fixes it only as "the scalar field modulus used for both
order-hash and request-hash reduction", the value below being that of the
proof system in question. -/
def SNARK_SCALAR_FIELD : Nat :=
  21888242871839275222246405745257275088548364400416034343698204186575808495617

/-- Word truncation to 32 bits. -/
def w32 (x : Nat) : Nat := x % 4294967296

/-- Right rotation of a 32-bit word by `n` places. -/
def rotr32 (n x : Nat) : Nat := (x >>> n) ||| w32 (x <<< (32 - n))

/-- SHA-256 message-schedule sigma functions. -/
def schedSigma0 (x : Nat) : Nat := (rotr32 7 x) ^^^ (rotr32 18 x) ^^^ (x >>> 3)

/-- SHA-256 message-schedule sigma functions. -/
def schedSigma1 (x : Nat) : Nat := (rotr32 17 x) ^^^ (rotr32 19 x) ^^^ (x >>> 10)

/-- SHA-256 round sigma functions. -/
def roundSigma0 (x : Nat) : Nat := (rotr32 2 x) ^^^ (rotr32 13 x) ^^^ (rotr32 22 x)

/-- SHA-256 round sigma functions. -/
def roundSigma1 (x : Nat) : Nat := (rotr32 6 x) ^^^ (rotr32 11 x) ^^^ (rotr32 25 x)

/-- SHA-256 round constants, written in decimal. -/
def sha256K : List Nat :=
  [1116352408, 1899447441, 3049323471, 3921009573, 961987163,
   1508970993, 2453635748, 2870763221, 3624381080, 310598401,
   607225278, 1426881987, 1925078388, 2162078206, 2614888103,
   3248222580, 3835390401, 4022224774, 264347078, 604807628,
   770255983, 1249150122, 1555081692, 1996064986, 2554220882,
   2821834349, 2952996808, 3210313671, 3336571891, 3584528711,
   113926993, 338241895, 666307205, 773529912, 1294757372,
   1396182291, 1695183700, 1986661051, 2177026350, 2456956037,
   2730485921, 2820302411, 3259730800, 3345764771, 3516065817,
   3600352804, 4094571909, 275423344, 430227734, 506948616,
   659060556, 883997877, 958139571, 1322822218, 1537002063,
   1747873779, 1955562222, 2024104815, 2227730452, 2361852424,
   2428436474, 2756734187, 3204031479, 3329325298]

/-- SHA-256 initial hash state, written in decimal. -/
def sha256H0 : List Nat :=
  [1779033703, 3144134277, 1013904242, 2773480762, 1359893119,
   2600822924, 528734635, 1541459225]

/-- Big-endian byte rendering of a value in `n` bytes. -/
def bytesBE (n v : Nat) : List Nat :=
  (List.range n).map (fun i => (v >>> (8 * (n - 1 - i))) % 256)

/-- SHA-256 padding: a `0x80` byte, zero bytes up to 56 mod 64, then the
bit length in 8 big-endian bytes. -/
def sha256pad (msg : List Nat) : List Nat :=
  let z := (119 - msg.length % 64) % 64
  msg ++ [128] ++ List.replicate z 0 ++ bytesBE 8 (8 * msg.length)

/-- Split a padded message into 64-byte blocks. -/
def chunk64 (l : List Nat) : List (List Nat) :=
  (List.range (l.length / 64)).map (fun i => (l.drop (64 * i)).take 64)

/-- SHA-256 message-schedule extension of 16 words to 64 words. -/
def sha256extend (w : List Nat) : List Nat :=
  (List.range 48).foldl
    (fun w _ =>
      let n := w.length
      w ++ [w32 (schedSigma1 (w.getD (n - 2) 0) + w.getD (n - 7) 0 +
                 schedSigma0 (w.getD (n - 15) 0) + w.getD (n - 16) 0)])
    w

/-- SHA-256 compression of one 64-byte block into the running state. -/
def sha256compress (h : List Nat) (block : List Nat) : List Nat :=
  let w0 := (List.range 16).map (fun i =>
    ((block.getD (4 * i) 0) <<< 24) ||| ((block.getD (4 * i + 1) 0) <<< 16) |||
    ((block.getD (4 * i + 2) 0) <<< 8) ||| block.getD (4 * i + 3) 0)
  let w := sha256extend w0
  let st := (List.range 64).foldl
    (fun (st : List Nat) i =>
      match st with
      | [a, b, c, d, e, f, g, hh] =>
          let ch := (e &&& f) ^^^ ((4294967295 - e) &&& g)
          let maj := (a &&& b) ^^^ (a &&& c) ^^^ (b &&& c)
          let t1 := w32 (hh + roundSigma1 e + ch + sha256K.getD i 0 + w.getD i 0)
          let t2 := w32 (roundSigma0 a + maj)
          [w32 (t1 + t2), a, b, c, w32 (d + t1), e, f, g]
      | _ => st)
    h
  List.zipWith (fun x y => w32 (x + y)) h st

/-- SHA-256 digest of a byte sequence, read as one big-endian natural
number: this is Python `int(hashlib.sha256(data).hexdigest(), 16)`. -/
def sha256Nat (msg : List Nat) : Nat :=
  ((chunk64 (sha256pad msg)).foldl sha256compress sha256H0).foldl
    (fun acc x => acc * 4294967296 + x) 0

/-- The message hash computed by the secure-request branch of `api_request`
(lines 817-825): `full_url` is `API_REST_ENDPOINT + url`, the canonical
string is `_encode_request(full_url, http_method, params)` — note the call
site passes the URL first and the method second, matching the definition
order of `_encode_request` — its UTF-8 bytes are hashed with SHA-256, and
the digest is reduced modulo `SNARK_SCALAR_FIELD` before being signed. -/
def api_request_sig_hash (http_method url : String) (params : List (String × String))
    (endpoint : String) : Nat :=
  sha256Nat (strBytes (encode_request (endpoint ++ url) http_method params)) % SNARK_SCALAR_FIELD

/-- Counter map after a cold-path fetch of id 5 for token 2: the fetched id
is stored unincremented (line 229). -/
def coldState : Nat → Option Nat :=
  fun t => if t = 2 then some 5 else none

/-- Concrete trading rule used for witnesses: minimum order size 1, maximum
1000, increments 1/100, minimum notional 10, limit orders supported, market
orders not supported. -/
def ruleSmall : TradingRule :=
  { min_order_size := 1, max_order_size := 1000, min_price_increment := 1 / 100,
    min_base_amount_increment := 1 / 100, min_quote_amount_increment := 1 / 100,
    min_notional_size := 10, supports_limit_orders := true, supports_market_orders := false }

/-- Concrete trading rule with a small minimum order size, used for the
quantization witness. -/
def ruleTiny : TradingRule :=
  { min_order_size := 1 / 100, max_order_size := 1000, min_price_increment := 1 / 100,
    min_base_amount_increment := 1 / 100, min_quote_amount_increment := 1 / 100,
    min_notional_size := 10, supports_limit_orders := true, supports_market_orders := false }

/-- Concrete markets response used for witnesses. -/
def marketsW : List MarketInfo :=
  [{ market := "A-B", enabled := true, baseTokenId := 0, quoteTokenId := 1,
     precisionForPrice := 4 }]

/-- Concrete tokens response used for witnesses. -/
def tokensW : List TokenInfo :=
  [{ tokenId := 0, precision := 2, minOrderAmount := 1, maxOrderAmount := 1000 },
   { tokenId := 1, precision := 3, minOrderAmount := 5, maxOrderAmount := 2000 }]

/-- The trading rule that `update_trading_rules` writes for `marketsW` and
`tokensW` with the identity unpadding function. -/
def ruleW : TradingRule :=
  { min_order_size := 1, max_order_size := 1000, min_price_increment := 1 / 10 ^ 4,
    min_base_amount_increment := 1 / 10 ^ 2, min_quote_amount_increment := 1 / 10 ^ 3,
    min_notional_size := 5, supports_limit_orders := true, supports_market_orders := false }

/-- Rounding toward zero of a nonnegative value to a positive step: the
result never exceeds the input, differs from it by less than one step, and
is an integer multiple of the step. -/
theorem quantizeRoundDown_nonneg_spec (x step : ℚ) (hs : 0 < step) (hx : 0 ≤ x) :
    quantizeRoundDown x step ≤ x ∧ x - quantizeRoundDown x step < step ∧
    ∃ k : ℤ, quantizeRoundDown x step = (k : ℚ) * step := by
  have hy : 0 ≤ x / step := div_nonneg hx hs.le
  have htr : ratTrunc (x / step) = ⌊x / step⌋ := if_pos hy
  have hq : quantizeRoundDown x step = ((⌊x / step⌋ : ℚ)) * step := by
    rw [quantizeRoundDown, htr]
  have hle : quantizeRoundDown x step ≤ x := by
    rw [hq]
    calc ((⌊x / step⌋ : ℚ)) * step ≤ (x / step) * step :=
          mul_le_mul_of_nonneg_right (Int.floor_le _) hs.le
      _ = x := div_mul_cancel₀ x (ne_of_gt hs)
  have hlt : x - quantizeRoundDown x step < step := by
    have h2 : x / step < (⌊x / step⌋ : ℚ) + 1 := Int.lt_floor_add_one _
    have h3 : (x / step) * step < ((⌊x / step⌋ : ℚ) + 1) * step :=
      mul_lt_mul_of_pos_right h2 hs
    rw [div_mul_cancel₀ x (ne_of_gt hs), add_mul, one_mul] at h3
    rw [hq]
    linarith
  exact ⟨hle, hlt, ⟨⌊x / step⌋, hq⟩⟩

/-- When the amount quantizer with zero price returns a value below the
minimum order size, that value is the zero sentinel. -/
theorem quantize_below_min_eq_zero (r : TradingRule) (amount : ℚ)
    (h : c_quantize_order_amount r amount 0 < r.min_order_size) :
    c_quantize_order_amount r amount 0 = 0 := by
  by_cases hq : quantizeRoundDown amount r.min_base_amount_increment < r.min_order_size
  · simp [c_quantize_order_amount, hq]
  · exfalso
    have hval : c_quantize_order_amount r amount 0 =
        quantizeRoundDown amount r.min_base_amount_increment := by
      simp [c_quantize_order_amount, hq]
    rw [hval] at h
    exact hq h

/-- C2, amended.  The claim is stated for every call of the quantizers; it
fails only in that the quantizer applies its notional check exclusively when
the supplied price is positive (the source guards it with `price > 0`, and
the price parameter defaults to zero).  This theorem proves the amended
claim: (1) a quantized amount below the minimum order size yields the zero
sentinel; (2) with a positive price, a notional below the minimum also
yields the zero sentinel; (3) the price quantizer rounds toward zero onto
multiples of the price increment; (4) the amount quantizer rounds toward
zero onto multiples of the amount increment before its sentinel checks; and
(5) concretely, amount 0.12345 with increment 0.01 quantizes to 0.12. -/
theorem C2_quantization :
    (∀ (r : TradingRule) (amount price : ℚ),
        quantizeRoundDown amount r.min_base_amount_increment < r.min_order_size →
        c_quantize_order_amount r amount price = 0) ∧
    (∀ (r : TradingRule) (amount price : ℚ),
        0 < price →
        price * quantizeRoundDown amount r.min_base_amount_increment < r.min_notional_size →
        c_quantize_order_amount r amount price = 0) ∧
    (∀ (r : TradingRule) (price : ℚ), 0 < r.min_price_increment → 0 ≤ price →
        c_quantize_order_price r price ≤ price ∧
        price - c_quantize_order_price r price < r.min_price_increment ∧
        ∃ k : ℤ, c_quantize_order_price r price = (k : ℚ) * r.min_price_increment) ∧
    (∀ (r : TradingRule) (amount : ℚ), 0 < r.min_base_amount_increment → 0 ≤ amount →
        quantizeRoundDown amount r.min_base_amount_increment ≤ amount ∧
        amount - quantizeRoundDown amount r.min_base_amount_increment <
          r.min_base_amount_increment ∧
        ∃ k : ℤ, quantizeRoundDown amount r.min_base_amount_increment =
          (k : ℚ) * r.min_base_amount_increment) ∧
    (∀ r : TradingRule, r.min_base_amount_increment = 1 / 100 →
        r.min_order_size ≤ 12 / 100 →
        c_quantize_order_amount r (12345 / 100000) 0 = 12 / 100) := by
  refine ⟨?_, ?_, ?_, ?_, ?_⟩
  · intro r amount price h
    simp [c_quantize_order_amount, h]
  · intro r amount price hp hn
    by_cases hq : quantizeRoundDown amount r.min_base_amount_increment < r.min_order_size
    · simp [c_quantize_order_amount, hq]
    · simp [c_quantize_order_amount, hq, hp, hn]
  · intro r price hs hp
    exact quantizeRoundDown_nonneg_spec price r.min_price_increment hs hp
  · intro r amount hs ha
    exact quantizeRoundDown_nonneg_spec amount r.min_base_amount_increment hs ha
  · intro r hinc hmin
    have hq : quantizeRoundDown (12345 / 100000) r.min_base_amount_increment = 12 / 100 := by
      rw [hinc]
      have hdiv : (12345 / 100000 : ℚ) / (1 / 100) = 12345 / 1000 := by norm_num
      have hfl : (⌊(12345 / 1000 : ℚ)⌋ : ℤ) = 12 := by norm_num [Int.floor_eq_iff]
      rw [quantizeRoundDown, hdiv, ratTrunc, if_pos (by norm_num), hfl]
      norm_num
    have hno : ¬ quantizeRoundDown (12345 / 100000) r.min_base_amount_increment <
        r.min_order_size := by
      rw [hq]
      exact not_lt.mpr hmin
    have hval : c_quantize_order_amount r (12345 / 100000) 0 =
        quantizeRoundDown (12345 / 100000) r.min_base_amount_increment := by
      simp [c_quantize_order_amount, hno]
    rw [hval, hq]

/-- C2 counterexample.  The claim as stated says a quantized amount whose
product with the price is below the minimum notional yields the zero
sentinel; with the rule `ruleSmall` (minimum notional 10), amount 2 and
price 0 — the price `c_quantize_order_amount` is actually called with on the
submission path — the product 0 is below 10 yet the quantizer returns 2,
because the source only applies the notional check when `price > 0`. -/
theorem C2_notional_zero_price_counterexample :
    c_quantize_order_amount ruleSmall 2 0 = 2 ∧
    (0 : ℚ) * 2 < ruleSmall.min_notional_size ∧
    c_quantize_order_amount ruleSmall 2 0 ≠ 0 := by
  have hq : quantizeRoundDown 2 ruleSmall.min_base_amount_increment = 2 := by
    norm_num [ruleSmall, quantizeRoundDown, ratTrunc]
  have hno : ¬ quantizeRoundDown 2 ruleSmall.min_base_amount_increment <
      ruleSmall.min_order_size := by
    rw [hq]
    norm_num [ruleSmall]
  have hval : c_quantize_order_amount ruleSmall 2 0 = 2 := by
    simp [c_quantize_order_amount, hno, hq]
    norm_num [ruleSmall]
  refine ⟨hval, by norm_num [ruleSmall], by rw [hval]; norm_num⟩

/-- Helper fact for the C2 witness: with `ruleSmall`, the amount 1/2
quantizes below the minimum order size. -/
theorem ruleSmall_half_below_min :
    quantizeRoundDown (1 / 2) ruleSmall.min_base_amount_increment < ruleSmall.min_order_size := by
  norm_num [ruleSmall, quantizeRoundDown, ratTrunc]

/-- Helper fact for the C2 witness: the amount increment of `ruleSmall` is
one hundredth. -/
theorem ruleSmall_increment :
    ruleSmall.min_base_amount_increment = 1 / 100 := rfl

/-- Helper fact for the C2 witness: the minimum order size of `ruleTiny`
is at most 0.12. -/
theorem ruleTiny_min_le : ruleTiny.min_order_size ≤ 12 / 100 := by
  norm_num [ruleTiny]

/-- Helper fact for the C2 witness: the amount increment of `ruleTiny` is
one hundredth. -/
theorem ruleTiny_increment :
    ruleTiny.min_base_amount_increment = 1 / 100 := rfl

/-- C2 witness: the amended claim instantiated at concrete inputs — an
amount quantizing below the minimum order size yields the sentinel, and the
concrete example 0.12345 with increment 0.01 quantizes to 0.12. -/
theorem C2_quantization_witness :
    c_quantize_order_amount ruleSmall (1 / 2) 5 = 0 ∧
    c_quantize_order_amount ruleTiny (12345 / 100000) 0 = 12 / 100 :=
  ⟨C2_quantization.1 ruleSmall (1 / 2) 5 ruleSmall_half_below_min,
   C2_quantization.2.2.2.2 ruleTiny ruleTiny_increment ruleTiny_min_le⟩

/-- C1.  The claim holds on the warm path but the code violates its
cold-path part: evaluating `_get_next_order_id` on a token with no stored
counter and a remote next-id of 5 returns 5 and stores 5 unincremented
(line 229 stores `next_id`, not `next_id + 1`), so the immediately following
warm call returns 5 again — two allocations for the same asset return the
same order id, contradicting the no-repeats guarantee the allocator is for.
This theorem evaluates the embedded code at that failing input. -/
theorem C1_cold_path_duplicate :
    getNextOrderId (fun _ => none) 2 false (Except.ok 5) = (Except.ok 5, coldState) ∧
    (getNextOrderId coldState 2 false (Except.ok 99)).1 = Except.ok 5 ∧
    (getNextOrderId coldState 2 false (Except.ok 99)).2 2 = some 6 := by
  refine ⟨?_, rfl, rfl⟩
  rfl

/-- C7, amended.  When the remote next-order-id query raises on the cold or
forced path, the allocator catches and logs that exception (lines 230-232)
rather than re-raising it; the subsequent `return next_id` then raises an
`UnboundLocalError` because `next_id` was never assigned.  The caller
therefore still receives an error — the call never returns a value as if
the query had succeeded, no internal retry happens, and the stored counters
are unchanged — but the error is the unbound-local error, not the remote
query's own exception. -/
theorem C7_remote_error_fails_call :
    ∀ (counters : Nat → Option Nat) (token : Nat) (force_sync : Bool) (e : PyExn),
      force_sync = true ∨ counters token = none →
      getNextOrderId counters token force_sync (Except.error e) =
        (Except.error PyExn.unboundLocal, counters) := by
  intro counters token force_sync e h
  have hcond : (force_sync || (counters token).isNone) = true := by
    rcases h with h | h
    · rw [h, Bool.true_or]
    · rw [h]
      simp
  rw [getNextOrderId, if_pos hcond]

/-- C7 counterexample.  The claim as stated says the remote query's error is
reported to the caller of `_get_next_order_id`; in fact the remote error is
swallowed (logged) and the caller receives a different exception — the
unbound-local error — as this concrete cold-path evaluation shows. -/
theorem C7_error_identity_counterexample :
    (getNextOrderId (fun _ => none) 1 false (Except.error PyExn.generic)).1 =
      Except.error PyExn.unboundLocal ∧
    PyExn.unboundLocal ≠ PyExn.generic := by
  exact ⟨rfl, by decide⟩

/-- C7 witness: the amended claim applied on the concrete cold path with an
empty counter map and a failing remote query. -/
theorem C7_remote_error_fails_call_witness :
    getNextOrderId (fun _ => none) 3 false (Except.error PyExn.generic) =
      (Except.error PyExn.unboundLocal, fun _ => none) :=
  C7_remote_error_fails_call (fun _ => none) 3 false PyExn.generic (Or.inr rfl)

/-- C4.  For every order assembled by `place_order`, the preimage handed to
the poseidon hash is exactly the 13-element fixed-order list
[exchange id, order id, account id, sell-token id, buy-token id,
sell amount, buy amount, all-or-none flag, valid-from timestamp,
valid-until timestamp, maximum fee bound, buy flag, label], every element an
integer, with the all-or-none flag encoded as 0 (the source always sets
`"false"`) and the buy flag encoded as 1 exactly for a buy; the valid-until
entry is the valid-from timestamp plus five weeks, the fee bound is 63 and
the label 20. -/
theorem C4_serialize_order_fields :
    ∀ (exchangeId accountId order_id validSince : ℤ) (d : OrderDetails)
      (is_buy : Bool) (cid : String),
      serialize_order
          (place_order_record exchangeId accountId order_id validSince d is_buy cid) =
        [exchangeId, order_id, accountId, d.tokenSId, d.tokenBId, d.amountS, d.amountB, 0,
         validSince, validSince + 3024000, 63, if is_buy then 1 else 0, 20] ∧
      (serialize_order
          (place_order_record exchangeId accountId order_id validSince d is_buy cid)).length
        = 13 := by
  intro exchangeId accountId order_id validSince d is_buy cid
  cases is_buy <;>
    simp [serialize_order, place_order_record, boolInt]

/-- C5.  For every secure request with HTTP method `m`, endpoint-plus-route
URL, and parameter list `ps`, the value hashed and signed by `api_request`
equals the SHA-256 digest — read as a big-endian integer — of the canonical
string `m & urlencode(full url) & urlencode(join of key=value pairs)`,
reduced modulo the SNARK scalar field.  This pins down both the shape of the
canonical string (including the swapped URL/method parameter order of
`_encode_request` relative to its call site) and the modular reduction
applied before signing. -/
theorem C5_secure_request_hash :
    ∀ (m u ep : String) (ps : List (String × String)),
      api_request_sig_hash m u ps ep =
        sha256Nat (strBytes
          (m ++ "&" ++ pyQuote (ep ++ u) ++ "&" ++ pyQuote (renderParams ps))) %
          SNARK_SCALAR_FIELD := by
  intro m u ep ps
  have hjoin : joinAmp [m, pyQuote (ep ++ u), pyQuote (renderParams ps)] =
      m ++ "&" ++ pyQuote (ep ++ u) ++ "&" ++ pyQuote (renderParams ps) := by
    simp [joinAmp, String.append_assoc]
  rw [api_request_sig_hash, encode_request, hjoin]

/-- When any of the five validation checks fails, `execute_order` raises
`ValueError` before reaching `place_order`: no event, no nonce, no signing,
no network call, no tracking. -/
theorem execute_order_validation_fail (rule : TradingRule) (side : TradeType)
    (ot : OrderType) (amount price : ℚ) (nr : Except PyExn Nat) (sr : Except PyExn Bool)
    (rr : Except PyExn Nat) (h : ¬ validationPasses rule ot amount price) :
    execute_order rule side ot amount price nr sr rr = validationFailureResult := by
  unfold execute_order
  split_ifs with h1 h2 h3 h4 h5
  · rfl
  · rfl
  · rfl
  · rfl
  · rfl
  · exact absurd ⟨h1, h2, h3, h4, h5⟩ h

/-- When all five validation checks pass, `execute_order` proceeds to
`place_order` and its failure handling. -/
theorem execute_order_validation_pass (rule : TradingRule) (side : TradeType)
    (ot : OrderType) (amount price : ℚ) (nr : Except PyExn Nat) (sr : Except PyExn Bool)
    (rr : Except PyExn Nat) (h : validationPasses rule ot amount price) :
    execute_order rule side ot amount price nr sr rr = submissionResult nr sr rr := by
  obtain ⟨h1, h2, h3, h4, h5⟩ := h
  unfold execute_order
  split_ifs
  rfl

/-- Helper fact: with `ruleSmall`, the quantized amount for 1/2 (price
argument 0, as on the submission path) is below the minimum order size. -/
theorem ruleSmall_quantized_half_lt_min :
    c_quantize_order_amount ruleSmall (1 / 2) 0 < ruleSmall.min_order_size := by
  have hb := ruleSmall_half_below_min
  rw [one_div] at hb
  have h1 : c_quantize_order_amount ruleSmall (1 / 2) 0 = 0 := by
    simp [c_quantize_order_amount, hb]
  rw [h1]
  norm_num [ruleSmall]

/-- C3, amended.  For every buy whose quantized amount is below the pair's
minimum order size, the quantizer does produce the zero-amount sentinel,
but the submission path surfaces the rejection by raising `ValueError`
synchronously — caught by `execute_buy`, which emits exactly one failure
event and re-raises — rather than by returning the sentinel to the caller;
the rejection happens before any nonce is consumed, anything is signed, or
any network call is made, and the order is never tracked. -/
theorem C3_below_min_rejection :
    ∀ (rule : TradingRule) (amount price : ℚ) (nr : Except PyExn Nat)
      (sr : Except PyExn Bool) (rr : Except PyExn Nat),
      c_quantize_order_amount rule amount 0 < rule.min_order_size →
      c_quantize_order_amount rule amount 0 = 0 ∧
      execute_buy rule OrderType.LIMIT amount price nr sr rr =
        { outcome := Except.error PyExn.valueError, events := [MEvent.OrderFailure],
          nonceCalls := 0, signingCalls := 0, apiCalls := 0, forcedResyncs := 0,
          trackedAtEnd := false } := by
  intro rule amount price nr sr rr h
  have hzero := quantize_below_min_eq_zero rule amount h
  have hnv : ¬ validationPasses rule OrderType.LIMIT amount price := by
    intro hv
    exact hv.2.2.1 h
  have heo := execute_order_validation_fail rule TradeType.BUY OrderType.LIMIT amount price
    nr sr rr hnv
  refine ⟨hzero, ?_⟩
  unfold execute_buy
  rw [heo]
  rfl

/-- C3 counterexample.  The claim as stated says the submission path
"returns the zero-amount sentinel to the caller"; evaluating `execute_buy`
at the concrete below-minimum buy (rule `ruleSmall`, amount 1/2) shows the
path instead raises a `ValueError` — it never returns normally at all. -/
theorem C3_raises_counterexample :
    (execute_buy ruleSmall OrderType.LIMIT (1 / 2) 5 (Except.ok 1) (Except.ok true)
        (Except.ok 1)).outcome = Except.error PyExn.valueError ∧
    (execute_buy ruleSmall OrderType.LIMIT (1 / 2) 5 (Except.ok 1) (Except.ok true)
        (Except.ok 1)).outcome ≠ Except.ok () := by
  have hnv : ¬ validationPasses ruleSmall OrderType.LIMIT (1 / 2) 5 := by
    intro hv
    exact hv.2.2.1 ruleSmall_quantized_half_lt_min
  have heo := execute_order_validation_fail ruleSmall TradeType.BUY OrderType.LIMIT (1 / 2) 5
    (Except.ok 1) (Except.ok true) (Except.ok 1) hnv
  unfold execute_buy
  rw [heo]
  exact ⟨rfl, by decide⟩

/-- C3 witness: the amended claim applied to the concrete below-minimum buy
with rule `ruleSmall` and amount 1/2. -/
theorem C3_below_min_rejection_witness :
    c_quantize_order_amount ruleSmall (1 / 2) 0 = 0 ∧
    execute_buy ruleSmall OrderType.LIMIT (1 / 2) 5 (Except.ok 1) (Except.ok true)
        (Except.ok 1) =
      { outcome := Except.error PyExn.valueError, events := [MEvent.OrderFailure],
        nonceCalls := 0, signingCalls := 0, apiCalls := 0, forcedResyncs := 0,
        trackedAtEnd := false } :=
  C3_below_min_rejection ruleSmall (1 / 2) 5 (Except.ok 1) (Except.ok true) (Except.ok 1)
    ruleSmall_quantized_half_lt_min

/-- C6, amended.  For every submission attempt, at most one `OrderFailure`
event is ever emitted.  Exactly one is emitted — and the order is not
tracked — when the attempt fails by a validation `ValueError`, and likewise
when the remote submission fails and the forced allocator resync performed
inside the failure handler succeeds.  The amendment: if that forced resync
itself raises (line 347 precedes `stop_tracking` and the event trigger in
the `except` block), the handler aborts, no failure event is emitted at all,
and the resync error propagates — so the original claim's "exactly one
failure event on every failed submission" holds only when the resync does
not also fail. -/
theorem C6_single_failure_event :
    ∀ (rule : TradingRule) (ot : OrderType) (amount price : ℚ)
      (nr : Except PyExn Nat) (sr : Except PyExn Bool) (rr : Except PyExn Nat),
      ((execute_buy rule ot amount price nr sr rr).events.count MEvent.OrderFailure ≤ 1) ∧
      ((execute_buy rule ot amount price nr sr rr).outcome = Except.error PyExn.valueError →
        (execute_buy rule ot amount price nr sr rr).events.count MEvent.OrderFailure = 1 ∧
        (execute_buy rule ot amount price nr sr rr).trackedAtEnd = false) ∧
      (validationPasses rule ot amount price →
        ∀ e : PyExn, (place_order_model nr sr).outcome = Except.error e →
        ∀ k : Nat, rr = Except.ok k →
          (execute_buy rule ot amount price nr sr rr).events.count MEvent.OrderFailure = 1 ∧
          (execute_buy rule ot amount price nr sr rr).trackedAtEnd = false ∧
          (execute_buy rule ot amount price nr sr rr).outcome = Except.ok ()) := by
  intro rule ot amount price nr sr rr
  by_cases hv : validationPasses rule ot amount price
  · have heo := execute_order_validation_pass rule TradeType.BUY ot amount price nr sr rr hv
    have hbe : execute_buy rule ot amount price nr sr rr =
        buyWrap (submissionResult nr sr rr) := by
      unfold execute_buy
      rw [heo]
    rw [hbe]
    cases hpo : (place_order_model nr sr).outcome with
    | ok u =>
        have hb2 : buyWrap (submissionResult nr sr rr) =
            { outcome := Except.ok (), events := [MEvent.BuyOrderCreated],
              nonceCalls := (place_order_model nr sr).nonceCalls,
              signingCalls := (place_order_model nr sr).signingCalls,
              apiCalls := (place_order_model nr sr).apiCalls, forcedResyncs := 0,
              trackedAtEnd := true } := by
          unfold buyWrap submissionResult
          rw [hpo]
          rfl
        rw [hb2]
        exact ⟨Nat.zero_le 1, fun hco => Except.noConfusion hco,
          fun hvp e he k hrk => Except.noConfusion he⟩
    | error e0 =>
        cases rr with
        | ok k0 =>
            have hb2 : buyWrap (submissionResult nr sr (Except.ok k0)) =
                { outcome := Except.ok (),
                  events := [MEvent.OrderFailure, MEvent.BuyOrderCreated],
                  nonceCalls := (place_order_model nr sr).nonceCalls,
                  signingCalls := (place_order_model nr sr).signingCalls,
                  apiCalls := (place_order_model nr sr).apiCalls, forcedResyncs := 1,
                  trackedAtEnd := false } := by
              unfold buyWrap submissionResult
              rw [hpo]
              rfl
            rw [hb2]
            exact ⟨le_refl 1, fun hco => Except.noConfusion hco,
              fun hvp e he k hrk => ⟨rfl, rfl, rfl⟩⟩
        | error e2 =>
            cases e2 with
            | valueError =>
                have hb2 : buyWrap (submissionResult nr sr (Except.error PyExn.valueError)) =
                    { outcome := Except.error PyExn.valueError,
                      events := [MEvent.OrderFailure],
                      nonceCalls := (place_order_model nr sr).nonceCalls,
                      signingCalls := (place_order_model nr sr).signingCalls,
                      apiCalls := (place_order_model nr sr).apiCalls, forcedResyncs := 1,
                      trackedAtEnd := false } := by
                  unfold buyWrap submissionResult
                  rw [hpo]
                  rfl
                rw [hb2]
                exact ⟨le_refl 1, fun _ => ⟨rfl, rfl⟩,
                  fun hvp e he k hrk => Except.noConfusion hrk⟩
            | unboundLocal =>
                have hb2 : buyWrap (submissionResult nr sr (Except.error PyExn.unboundLocal)) =
                    { outcome := Except.error PyExn.unboundLocal, events := [],
                      nonceCalls := (place_order_model nr sr).nonceCalls,
                      signingCalls := (place_order_model nr sr).signingCalls,
                      apiCalls := (place_order_model nr sr).apiCalls, forcedResyncs := 1,
                      trackedAtEnd := false } := by
                  unfold buyWrap submissionResult
                  rw [hpo]
                rw [hb2]
                refine ⟨Nat.zero_le 1, fun hco => ?_,
                  fun hvp e he k hrk => Except.noConfusion hrk⟩
                injection hco with hco2
                exact PyExn.noConfusion hco2
            | keyError =>
                have hb2 : buyWrap (submissionResult nr sr (Except.error PyExn.keyError)) =
                    { outcome := Except.error PyExn.keyError, events := [],
                      nonceCalls := (place_order_model nr sr).nonceCalls,
                      signingCalls := (place_order_model nr sr).signingCalls,
                      apiCalls := (place_order_model nr sr).apiCalls, forcedResyncs := 1,
                      trackedAtEnd := false } := by
                  unfold buyWrap submissionResult
                  rw [hpo]
                rw [hb2]
                refine ⟨Nat.zero_le 1, fun hco => ?_,
                  fun hvp e he k hrk => Except.noConfusion hrk⟩
                injection hco with hco2
                exact PyExn.noConfusion hco2
            | generic =>
                have hb2 : buyWrap (submissionResult nr sr (Except.error PyExn.generic)) =
                    { outcome := Except.error PyExn.generic, events := [],
                      nonceCalls := (place_order_model nr sr).nonceCalls,
                      signingCalls := (place_order_model nr sr).signingCalls,
                      apiCalls := (place_order_model nr sr).apiCalls, forcedResyncs := 1,
                      trackedAtEnd := false } := by
                  unfold buyWrap submissionResult
                  rw [hpo]
                rw [hb2]
                refine ⟨Nat.zero_le 1, fun hco => ?_,
                  fun hvp e he k hrk => Except.noConfusion hrk⟩
                injection hco with hco2
                exact PyExn.noConfusion hco2
  · have heo := execute_order_validation_fail rule TradeType.BUY ot amount price nr sr rr hv
    have hbe : execute_buy rule ot amount price nr sr rr =
        { outcome := Except.error PyExn.valueError, events := [MEvent.OrderFailure],
          nonceCalls := 0, signingCalls := 0, apiCalls := 0, forcedResyncs := 0,
          trackedAtEnd := false } := by
      unfold execute_buy
      rw [heo]
      rfl
    rw [hbe]
    exact ⟨le_refl 1, fun _ => ⟨rfl, rfl⟩, fun hvp => absurd hvp hv⟩

/-- Helper fact: with `ruleSmall`, a LIMIT buy of amount 5 at price 10
passes every validation check of `execute_order`. -/
theorem ruleSmall_pass_5_10 : validationPasses ruleSmall OrderType.LIMIT 5 10 := by
  have h1 : quantizeRoundDown 5 ruleSmall.min_base_amount_increment = 5 := by
    norm_num [ruleSmall, quantizeRoundDown, ratTrunc]
  have hno : ¬ quantizeRoundDown 5 ruleSmall.min_base_amount_increment <
      ruleSmall.min_order_size := by
    rw [h1]
    norm_num [ruleSmall]
  have hq5 : c_quantize_order_amount ruleSmall 5 0 = 5 := by
    simp [c_quantize_order_amount, hno, h1]
    norm_num [ruleSmall]
  have hp10 : c_quantize_order_price ruleSmall 10 = 10 := by
    norm_num [c_quantize_order_price, ruleSmall, quantizeRoundDown, ratTrunc]
  refine ⟨fun h => Bool.noConfusion h.2, fun h => OrderType.noConfusion h.1, ?_, ?_, ?_⟩
  · rw [hq5]
    norm_num [ruleSmall]
  · rw [hq5]
    norm_num [ruleSmall]
  · rw [hq5, hp10]
    norm_num [ruleSmall]

/-- C6 counterexample.  The claim as stated requires exactly one failure
event for every failed submission.  Concretely, a valid LIMIT buy whose
remote submission fails AND whose forced nonce resync inside the failure
handler also fails emits NO failure event at all: the handler aborts at the
resync (line 347) before reaching `stop_tracking` and the event trigger, and
the resync error propagates to the caller instead. -/
theorem C6_double_failure_counterexample :
    (execute_buy ruleSmall OrderType.LIMIT 5 10 (Except.ok 1) (Except.error PyExn.generic)
        (Except.error PyExn.generic)).events.count MEvent.OrderFailure = 0 ∧
    (place_order_model (Except.ok 1) (Except.error PyExn.generic)).outcome =
      Except.error PyExn.generic ∧
    (execute_buy ruleSmall OrderType.LIMIT 5 10 (Except.ok 1) (Except.error PyExn.generic)
        (Except.error PyExn.generic)).outcome = Except.error PyExn.generic := by
  have heo := execute_order_validation_pass ruleSmall TradeType.BUY OrderType.LIMIT 5 10
    (Except.ok 1) (Except.error PyExn.generic) (Except.error PyExn.generic) ruleSmall_pass_5_10
  have hbe : execute_buy ruleSmall OrderType.LIMIT 5 10 (Except.ok 1)
      (Except.error PyExn.generic) (Except.error PyExn.generic) =
      buyWrap (submissionResult (Except.ok 1) (Except.error PyExn.generic)
        (Except.error PyExn.generic)) := by
    unfold execute_buy
    rw [heo]
  rw [hbe]
  exact ⟨rfl, rfl, rfl⟩

/-- C6 witness: the amended claim applied to a concrete valid LIMIT buy
whose remote submission fails while the forced resync succeeds — exactly one
failure event, tracking stopped, and `execute_order` swallowing the
submission exception. -/
theorem C6_single_failure_event_witness :
    (execute_buy ruleSmall OrderType.LIMIT 5 10 (Except.ok 1) (Except.error PyExn.generic)
        (Except.ok 7)).events.count MEvent.OrderFailure = 1 ∧
    (execute_buy ruleSmall OrderType.LIMIT 5 10 (Except.ok 1) (Except.error PyExn.generic)
        (Except.ok 7)).trackedAtEnd = false ∧
    (execute_buy ruleSmall OrderType.LIMIT 5 10 (Except.ok 1) (Except.error PyExn.generic)
        (Except.ok 7)).outcome = Except.ok () :=
  (C6_single_failure_event ruleSmall OrderType.LIMIT 5 10 (Except.ok 1)
      (Except.error PyExn.generic) (Except.ok 7)).2.2 ruleSmall_pass_5_10
    PyExn.generic rfl 7 rfl

/-- C8.  A push message on topic `order` whose client order id is not a key
of the in-flight registry is logged and dropped: the registry is returned
unchanged (no entry added, removed or mutated), no event is emitted, and
this holds for every possible behavior of the tracked-order update
function, which is never invoked on this path. -/
theorem C8_unknown_order_dropped :
    ∀ (O D : Type) (update : O → D → Option O × List MEvent)
      (registry : List (String × O)) (cid : String) (payload : D),
      regLookup registry cid = none →
      handle_user_stream_message update registry "order" cid payload =
        (registry, [], true) := by
  intro O D update registry cid payload h
  unfold handle_user_stream_message
  rw [if_neg (by decide : ¬("order" : String) = "account"), if_pos rfl, h]

/-- C8 witness: a registry holding only order id `a` receiving an `order`
message for the unknown id `b`. -/
theorem C8_unknown_order_dropped_witness :
    handle_user_stream_message (fun (o : Unit) (_ : Unit) => (some o, []))
        [("a", ())] "order" "b" () = ([("a", ())], [], true) :=
  C8_unknown_order_dropped Unit Unit (fun o _ => (some o, [])) [("a", ())] "b" ()
    (by decide)

/-- Per-id results accumulated by the `cancel_all` loop: the ids of the
results are exactly the ids iterated over, and every result is marked
successful because `cancel_order` never raises. -/
theorem cancel_all_go_spec (O : Type) (remote : String → Except PyExn Unit)
    (cids : List String) (registry : List (String × O)) :
    ((cancel_all_go remote cids registry).1.map (fun c => c.order_id) = cids) ∧
    (∀ c, c ∈ (cancel_all_go remote cids registry).1 → c.success = true) := by
  induction cids generalizing registry with
  | nil => exact ⟨rfl, fun c hc => absurd hc (List.not_mem_nil c)⟩
  | cons cid rest ih =>
      refine ⟨?_, ?_⟩
      · simp only [cancel_all_go, List.map_cons]
        rw [(ih _).1]
      · intro c hc
        simp only [cancel_all_go, List.mem_cons] at hc
        rcases hc with h | h
        · rw [h]
        · exact (ih _).2 c h

/-- C9, amended.  `cancel_all` returns one `CancellationResult` per order
tracked when it was called, in registry order; the amendment: every result
carries `success = True` regardless of whether the remote cancellation
succeeded, because `cancel_order` catches every exception (lines 425-427)
and so the `except` branch of `cancel_all` that would record a failure is
unreachable; and the `timeout_seconds` argument is never read, so the
result is independent of it. -/
theorem C9_cancel_all_results :
    ∀ (O : Type) (t t2 : ℚ) (registry : List (String × O))
      (remote : String → Except PyExn Unit),
      ((cancel_all t registry remote).1.map (fun c => c.order_id) =
        registry.map Prod.fst) ∧
      (∀ c, c ∈ (cancel_all t registry remote).1 → c.success = true) ∧
      cancel_all t registry remote = cancel_all t2 registry remote := by
  intro O t t2 registry remote
  exact ⟨(cancel_all_go_spec O remote (registry.map Prod.fst) registry).1,
    (cancel_all_go_spec O remote (registry.map Prod.fst) registry).2, rfl⟩

/-- C9 counterexample.  The claim as stated says each result's success flag
reports whether that order's cancellation succeeded or failed; concretely,
for a registry holding order `a` whose remote cancellation RAISES, the
returned result still says `success = true`, the order is still tracked,
and no cancellation event was emitted. -/
theorem C9_false_success_counterexample :
    cancel_all 10 [("a", ())] (fun _ => Except.error PyExn.generic) =
      ([{ order_id := "a", success := true }], [("a", ())], []) := rfl

/-- C9 witness: the amended claim applied to a concrete two-order registry
with a succeeding remote cancel: one result per order, in order, and the
success flag of a returned result is true. -/
theorem C9_cancel_all_results_witness :
    ((cancel_all 3 [("a", ()), ("b", ())] (fun _ => Except.ok ())).1.map
        (fun c => c.order_id) = ["a", "b"]) ∧
    ({ order_id := "a", success := true } : CancellationResult).success = true :=
  ⟨(C9_cancel_all_results Unit 3 4 [("a", ()), ("b", ())] (fun _ => Except.ok ())).1,
   (C9_cancel_all_results Unit 3 4 [("a", ()), ("b", ())] (fun _ => Except.ok ())).2.1
     { order_id := "a", success := true } (by decide)⟩

/-- C10.  Every trading rule written by `_update_trading_rules` has
`supports_limit_orders = True` and `supports_market_orders = False`
(hard-coded at lines 724-725); consequently, for every rule with market
orders unsupported, `execute_order` with order type MARKET evaluates to the
validation-failure result: it raises `ValueError` with zero nonce
allocations, zero signing operations, zero network calls, no events and no
tracking. -/
theorem C10_market_orders_rejected :
    (∀ (markets : List MarketInfo) (tokens : List TokenInfo) (unpad : Nat → Nat → ℚ)
       (pr : String × TradingRule), pr ∈ update_trading_rules markets tokens unpad →
         pr.2.supports_limit_orders = true ∧ pr.2.supports_market_orders = false) ∧
    (∀ (rule : TradingRule) (side : TradeType) (amount price : ℚ)
       (nr : Except PyExn Nat) (sr : Except PyExn Bool) (rr : Except PyExn Nat),
       rule.supports_market_orders = false →
         execute_order rule side OrderType.MARKET amount price nr sr rr =
           validationFailureResult ∧
         (execute_order rule side OrderType.MARKET amount price nr sr rr).outcome =
           Except.error PyExn.valueError ∧
         (execute_order rule side OrderType.MARKET amount price nr sr rr).nonceCalls = 0 ∧
         (execute_order rule side OrderType.MARKET amount price nr sr rr).signingCalls = 0 ∧
         (execute_order rule side OrderType.MARKET amount price nr sr rr).apiCalls = 0 ∧
         (execute_order rule side OrderType.MARKET amount price nr sr rr).events = []) := by
  constructor
  · intro markets tokens unpad pr hpr
    simp only [update_trading_rules, List.mem_filterMap] at hpr
    obtain ⟨m, hm, hf⟩ := hpr
    split at hf
    · split at hf
      · injection hf with hf2
        rw [← hf2]
        exact ⟨rfl, rfl⟩
      · exact Option.noConfusion hf
    · exact Option.noConfusion hf
  · intro rule side amount price nr sr rr h
    have heq : execute_order rule side OrderType.MARKET amount price nr sr rr =
        validationFailureResult := by
      unfold execute_order
      rw [if_neg (fun hc => OrderType.noConfusion hc.1), if_pos ⟨rfl, h⟩]
    refine ⟨heq, ?_, ?_, ?_, ?_, ?_⟩ <;> rw [heq] <;> rfl

/-- Helper fact for the C10 witness: the rule table produced from the
concrete markets and tokens responses, with raw amounts unpadded by the
cast to rationals, is the singleton holding `ruleW`. -/
theorem marketsW_rule :
    update_trading_rules marketsW tokensW (fun r _ => (r : ℚ)) = [("A-B", ruleW)] := by
  simp [update_trading_rules, marketsW, tokensW, tokenLookup, ruleW]

/-- C10 witness: the first part applied to the concrete rule table built
from `marketsW` and `tokensW`, and the second part applied to `ruleW`. -/
theorem C10_market_orders_rejected_witness :
    (ruleW.supports_limit_orders = true ∧ ruleW.supports_market_orders = false) ∧
    execute_order ruleW TradeType.BUY OrderType.MARKET 5 10 (Except.ok 1) (Except.ok true)
        (Except.ok 1) = validationFailureResult :=
  ⟨C10_market_orders_rejected.1 marketsW tokensW (fun r _ => (r : ℚ)) ("A-B", ruleW)
      (by simp [marketsW_rule]),
   (C10_market_orders_rejected.2 ruleW TradeType.BUY 5 10 (Except.ok 1) (Except.ok true)
      (Except.ok 1) rfl).1⟩

/-- Sanity check of the SHA-256 embedding against the standard test vector
for the string `abc`. -/
theorem sha256_abc :
    sha256Nat (strBytes "abc") =
      0xba7816bf8f01cfea414140de5dae2223b00361a396177a9cb410ff61f20015ad := by
  set_option maxRecDepth 10000 in decide
